import Mathlib

/-!
Shallow embedding of the desktop process supervisor from
src/apps/desktop/src-tauri/src/lib.rs: toolchain discovery (find_npm),
server directory resolution (get_server_path), the TCP health probe
(is_server_running), and the lifecycle operations (start_server,
stop_server, get_server_status). Effectful Rust code is modelled by
explicit state passing over a `World` of ambient machine facts plus the
mutex-guarded handle slot `Option Child`.
-/

/-- Result of running the external command `which npm`: the exit-status
success flag and the captured standard output. -/
structure WhichOutput where
  success : Bool
  stdout : String
deriving Repr, DecidableEq

/-- The ambient machine state the supervisor reads or acts on:
environment variables, filesystem probes, directory listings, the
`which npm` lookup outcome, the running executable's parent directory,
path canonicalization, which TCP ports have a listener, and how the
spawn call and the handle-slot mutex behave during this call. -/
structure World where
  getenv : String → Option String
  pathExists : String → Bool
  readDir : String → Option (List String)
  whichNpm : Option WhichOutput
  exeParent : Option String
  canonicalize : String → Option String
  listening : Nat → Bool
  spawnOk : Bool
  spawnErr : String
  spawnPid : Nat
  lockOk : Bool

/-- `is_server_running`: attempt a TCP connect to 127.0.0.1 on the
given port; a successful connect means something is listening. -/
def is_server_running (w : World) (port : Nat) : Bool :=
  w.listening port

/-- First strategy of `find_npm`: run `which npm`; accept the trimmed
standard output when the command succeeded and the output is
nonempty. -/
def npmFromWhich (w : World) : Option String :=
  match w.whichNpm with
  | some output =>
    if output.success then
      let path := output.stdout.trim
      if path ≠ "" then some path else none
    else none
  | none => none

/-- The fixed list of common npm locations on macOS, in source order. -/
def common_paths : List String :=
  ["/usr/local/bin/npm", "/opt/homebrew/bin/npm", "/usr/bin/npm"]

/-- Second strategy of `find_npm`: the first common location that
exists on disk. -/
def npmFromCommon (w : World) : Option String :=
  common_paths.find? w.pathExists

/-- Third strategy of `find_npm`: the pinned v20.18.0 directory under
the per-user nvm root. -/
def npmFromNvmPinned (w : World) (home : String) : Option String :=
  let nvm_npm := home ++ "/.nvm/versions/node/v20.18.0/bin/npm"
  if w.pathExists nvm_npm then some nvm_npm else none

/-- Fourth strategy of `find_npm`: scan the entries of the nvm versions
directory and take the first whose bin/npm exists. -/
def npmFromNvmScan (w : World) (home : String) : Option String :=
  match w.readDir (home ++ "/.nvm/versions/node") with
  | some entries =>
    entries.findSome? fun entry =>
      let npm_path := entry ++ "/bin/npm"
      if w.pathExists npm_path then some npm_path else none
  | none => none

/-- `find_npm`: locate the npm executable trying, in order, the PATH
lookup via `which`, the fixed common locations, the pinned nvm version
directory, and a scan of all nvm version directories; the first match
wins and a miss everywhere yields none. -/
def find_npm (w : World) : Option String :=
  match npmFromWhich w with
  | some p => some p
  | none =>
    match npmFromCommon w with
    | some p => some p
    | none =>
      match w.getenv "HOME" with
      | some home =>
        match npmFromNvmPinned w home with
        | some p => some p
        | none => npmFromNvmScan w home
      | none => none

/-- First stage of `get_server_path`: the CLAUDE_PM_SERVER_PATH
environment override, accepted exactly when the named path exists. -/
def serverFromEnv (w : World) : Option String :=
  match w.getenv "CLAUDE_PM_SERVER_PATH" with
  | some path => if w.pathExists path then some path else none
  | none => none

/-- Second stage of `get_server_path`: the hardcoded project path under
the home directory, accepted exactly when it exists. -/
def serverFromHome (w : World) : Option String :=
  match w.getenv "HOME" with
  | some home =>
    let project_path := home ++ "/Desktop/projects/claudePM/server"
    if w.pathExists project_path then some project_path else none
  | none => none

/-- The candidate server paths relative to the executable's parent
directory, in source order. -/
def paths_to_try (parent : String) : List String :=
  [parent ++ "/../../../../server",
   parent ++ "/../../server",
   parent ++ "/../../../server"]

/-- Third stage of `get_server_path`: executable-relative candidates,
each canonicalized and accepted only when the canonical directory
contains package.json. -/
def serverFromExe (w : World) : Option String :=
  match w.exeParent with
  | some parent =>
    (paths_to_try parent).findSome? fun path =>
      match w.canonicalize path with
      | some canonical =>
        if w.pathExists (canonical ++ "/package.json") then some canonical
        else none
      | none => none
  | none => none

/-- `get_server_path`: resolve the server directory via the environment
override, then the hardcoded home path, then the executable-relative
candidates; none when every stage misses. -/
def get_server_path (w : World) : Option String :=
  match serverFromEnv w with
  | some p => some p
  | none =>
    match serverFromHome w with
    | some p => some p
    | none => serverFromExe w

/-- A spawned child process handle, carrying its process id. -/
structure Child where
  pid : Nat
deriving Repr, DecidableEq

/-- Rust `Path::parent` on a slash-separated path string: strip the
final component; none for the root or the empty path. -/
def parentDir (s : String) : Option String :=
  match s.splitOn "/" with
  | [] => none
  | [c] => if c = "" then none else some ""
  | parts =>
    let front := parts.dropLast
    if front = [""] then
      if parts.getLastD "" = "" then none else some "/"
    else some (String.intercalate "/" front)

/-- The configuration handed to the spawn call: program, arguments,
working directory, the child PATH value, and stream dispositions. -/
structure SpawnConfig where
  program : String
  args : List String
  cwd : String
  pathEnv : String
  stdoutPiped : Bool
  stderrPiped : Bool
deriving Repr, DecidableEq

deriving instance DecidableEq for Except

/-- Everything observable about one `start_server` call: the returned
result, the handle slot afterwards, the spawn invocation (some exactly
when spawn was called, with its configuration), and whether toolchain
resolution (`find_npm`) ran at all. -/
structure StartOutcome where
  result : Except String Unit
  slot : Option Child
  spawnCalled : Option SpawnConfig
  resolvedToolchain : Bool
deriving Repr, DecidableEq

/-- The fixed TCP port the server binds. -/
def serverPort : Nat := 4847

/-- `start_server`: return Ok at once when a listener already answers
on the fixed port; otherwise resolve npm and the server directory,
build the augmented child PATH, spawn with piped stdout and stderr in
the server directory, and store the handle in the slot under the lock.
Each failure returns the source's error string and leaves the slot as
it was. -/
def start_server (w : World) (slot : Option Child) : StartOutcome :=
  if is_server_running w serverPort then
    { result := Except.ok (), slot := slot, spawnCalled := none,
      resolvedToolchain := false }
  else
    match find_npm w with
    | none =>
      { result := Except.error
          "Could not find npm. Please ensure Node.js is installed.",
        slot := slot, spawnCalled := none, resolvedToolchain := true }
    | some npm_path =>
      match get_server_path w with
      | none =>
        { result := Except.error
            "Could not find server directory. Set CLAUDE_PM_SERVER_PATH environment variable.",
          slot := slot, spawnCalled := none, resolvedToolchain := true }
      | some server_path =>
        let npm_bin_dir := (parentDir npm_path).getD npm_path
        let home := (w.getenv "HOME").getD ""
        let current_path := (w.getenv "PATH").getD ""
        let new_path :=
          npm_bin_dir ++
            ":/usr/local/bin:/opt/homebrew/bin:/usr/bin:/bin:/usr/sbin:/sbin:" ++
            home ++ "/.nvm/versions/node/v20.18.0/bin:" ++ current_path
        let cfg : SpawnConfig :=
          { program := npm_path, args := ["run", "dev"], cwd := server_path,
            pathEnv := new_path, stdoutPiped := true, stderrPiped := true }
        if w.spawnOk then
          if w.lockOk then
            { result := Except.ok (), slot := some { pid := w.spawnPid },
              spawnCalled := some cfg, resolvedToolchain := true }
          else
            { result := Except.error "poisoned lock: another task failed inside",
              slot := slot, spawnCalled := some cfg, resolvedToolchain := true }
        else
          { result := Except.error ("Failed to start server: " ++ w.spawnErr),
            slot := slot, spawnCalled := some cfg, resolvedToolchain := true }

/-- The process-handle operations `stop_server` can perform. The
vocabulary also names the timed-wait operations the specification
discusses, so that their absence from the code's trace is a statable
fact. -/
inductive ProcAction where
  | kill (pid : Nat)
  | wait (pid : Nat)
  | waitTimeout (pid : Nat) (millis : Nat)
  | forceKillAfterTimeout (pid : Nat)
deriving Repr, DecidableEq

/-- Everything observable about one `stop_server` call: the handle slot
afterwards and the trace of process operations performed. The Rust
function returns unit, so no error component exists. -/
structure StopOutcome where
  slot : Option Child
  actions : List ProcAction
deriving Repr, DecidableEq

/-- `stop_server`: when the lock is acquired, kill and then wait on the
child if one is held, ignoring errors of both, and clear the slot
unconditionally; when the lock is poisoned, do nothing. Returns unit in
the source, so nothing fails outward. -/
def stop_server (lockOk : Bool) (slot : Option Child) : StopOutcome :=
  if lockOk then
    match slot with
    | some child =>
      { slot := none,
        actions := [ProcAction.kill child.pid, ProcAction.wait child.pid] }
    | none => { slot := none, actions := [] }
  else { slot := slot, actions := [] }

/-- A trace applies a timeout-bounded wait exactly when it contains a
timed wait or a forceful kill escalation after a timeout. -/
def hasBoundedWait (actions : List ProcAction) : Bool :=
  actions.any fun a =>
    match a with
    | ProcAction.waitTimeout _ _ => true
    | ProcAction.forceKillAfterTimeout _ => true
    | _ => false

/-- `get_server_status`: answer "running" when the probe on the fixed
port 4847 connects and "stopped" otherwise; both as Ok. -/
def get_server_status (w : World) : Except String String :=
  if is_server_running w serverPort then Except.ok "running"
  else Except.ok "stopped"

/-! Concrete worlds used as witnesses and counterexamples. -/

/-- A quiet machine: no environment variables, empty filesystem, no
`which` output, no listener anywhere, spawn would fail, lock healthy. -/
def quietWorld : World :=
  { getenv := fun _ => none, pathExists := fun _ => false,
    readDir := fun _ => none, whichNpm := none, exeParent := none,
    canonicalize := fun _ => none, listening := fun _ => false,
    spawnOk := false, spawnErr := "No such file or directory", spawnPid := 7,
    lockOk := true }

/-- A machine with a listener on every port (in particular 4847). -/
def busyWorld : World :=
  { quietWorld with listening := fun _ => true }

/-! Theorems settling the claims. -/

/-- C1: the supervisor keeps at most one child handle — the single
mutex-guarded `Option Child` slot — and when a listener already answers
on port 4847, `start_server` returns Ok without running `find_npm`,
without calling spawn, and with the slot exactly as it was. -/
theorem start_noop_when_healthy (w : World) (slot : Option Child)
    (h : w.listening serverPort = true) :
    (start_server w slot).result = Except.ok () ∧
    (start_server w slot).slot = slot ∧
    (start_server w slot).spawnCalled = none ∧
    (start_server w slot).resolvedToolchain = false := by
  simp [start_server, is_server_running, h]

/-- Witness for C1: on a machine already listening on 4847 with a held
handle, a further start keeps the single handle and spawns nothing. -/
theorem start_noop_when_healthy_witness :
    busyWorld.listening serverPort = true ∧
    ((start_server busyWorld (some { pid := 42 })).result = Except.ok () ∧
     (start_server busyWorld (some { pid := 42 })).slot = some { pid := 42 } ∧
     (start_server busyWorld (some { pid := 42 })).spawnCalled = none ∧
     (start_server busyWorld (some { pid := 42 })).resolvedToolchain = false) :=
  ⟨rfl, start_noop_when_healthy busyWorld (some { pid := 42 }) rfl⟩

/-- C4: `stop_server` returns unit (its outcome type has no error
component), clears the slot whenever the lock is acquired, performs no
process operation when no handle is held, and a second consecutive stop
after a lock-acquiring stop is a no-op. -/
theorem stop_idempotent (lockOk : Bool) (slot : Option Child) :
    (lockOk = true → (stop_server lockOk slot).slot = none) ∧
    (stop_server lockOk none).actions = [] ∧
    (lockOk = true →
      stop_server lockOk (stop_server lockOk slot).slot =
        { slot := none, actions := [] }) := by
  cases lockOk <;> cases slot <;> simp [stop_server]

/-- Witness for C4 at a held handle with the lock acquired. -/
theorem stop_idempotent_witness :
    ((true : Bool) = true → (stop_server true (some { pid := 5 })).slot = none) ∧
    (stop_server true none).actions = [] ∧
    ((true : Bool) = true →
      stop_server true (stop_server true (some { pid := 5 })).slot =
        { slot := none, actions := [] }) :=
  stop_idempotent true (some { pid := 5 })

/-- C5: whenever `start_server` returns an error — npm missing, server
directory missing, spawn failure, or a poisoned lock — the handle slot
is unchanged, so a failed start leaves the supervisor stopped and is
safe to retry. -/
theorem start_error_atomic (w : World) (slot : Option Child) (e : String)
    (h : (start_server w slot).result = Except.error e) :
    (start_server w slot).slot = slot := by
  by_cases hrun : is_server_running w serverPort = true
  · simp [start_server, hrun] at h
  · cases hnpm : find_npm w with
    | none => simp [start_server, hrun, hnpm]
    | some npm =>
      cases hsrv : get_server_path w with
      | none => simp [start_server, hrun, hnpm, hsrv]
      | some sp =>
        by_cases hs : w.spawnOk = true
        · by_cases hl : w.lockOk = true
          · simp [start_server, hrun, hnpm, hsrv, hs, hl] at h
          · simp [start_server, hrun, hnpm, hsrv, hs, hl]
        · simp [start_server, hrun, hnpm, hsrv, hs]

/-- Witness for C5: on the quiet machine start fails with the npm error
and the empty slot stays empty. -/
theorem start_error_atomic_witness :
    (start_server quietWorld none).result =
      Except.error "Could not find npm. Please ensure Node.js is installed." ∧
    (start_server quietWorld none).slot = none :=
  ⟨rfl, start_error_atomic quietWorld none
    "Could not find npm. Please ensure Node.js is installed." rfl⟩

/-- C6: `get_server_status` is derived purely from the probe on the
fixed port 4847 — it reads no handle slot at all — answering Ok
"running" exactly when the port has a listener, Ok "stopped" exactly
when it has none, and always an Ok value, never an error. -/
theorem status_from_probe (w : World) :
    (get_server_status w = Except.ok "running" ↔ w.listening serverPort = true) ∧
    (get_server_status w = Except.ok "stopped" ↔ w.listening serverPort = false) ∧
    ∃ s, get_server_status w = Except.ok s := by
  cases h : w.listening serverPort <;>
    simp [get_server_status, is_server_running, h]

/-- C3: `find_npm` honours the documented priority order. A `which` hit
wins outright; otherwise the first existing common location wins over
both nvm strategies whatever the nvm filesystem holds; otherwise the
pinned nvm version wins over the scan; and when every strategy misses
the result is none. -/
theorem find_npm_priority (w : World) :
    (∀ p, npmFromWhich w = some p → find_npm w = some p) ∧
    (∀ p, npmFromWhich w = none → npmFromCommon w = some p →
      find_npm w = some p) ∧
    (∀ home p, npmFromWhich w = none → npmFromCommon w = none →
      w.getenv "HOME" = some home → npmFromNvmPinned w home = some p →
      find_npm w = some p) ∧
    (∀ home, npmFromWhich w = none → npmFromCommon w = none →
      w.getenv "HOME" = some home → npmFromNvmPinned w home = none →
      find_npm w = npmFromNvmScan w home) ∧
    (npmFromWhich w = none → npmFromCommon w = none →
      (∀ home, w.getenv "HOME" = some home →
        npmFromNvmPinned w home = none ∧ npmFromNvmScan w home = none) →
      find_npm w = none) := by
  refine ⟨fun p h1 => ?_, fun p h1 h2 => ?_, fun home p h1 h2 h3 h4 => ?_,
    fun home h1 h2 h3 h4 => ?_, fun h1 h2 h3 => ?_⟩
  · simp [find_npm, h1]
  · simp [find_npm, h1, h2]
  · simp [find_npm, h1, h2, h3, h4]
  · simp [find_npm, h1, h2, h3, h4]
  · cases hh : w.getenv "HOME" with
    | none => simp [find_npm, h1, h2, hh]
    | some home =>
      have h4 := h3 home hh
      simp [find_npm, h1, h2, hh, h4.1, h4.2]

/-- A machine where the second strategy (a common location) and the
fourth strategy (an nvm version directory) both hold an npm, and the
first strategy misses. -/
def layeredWorld : World :=
  { quietWorld with
    getenv := fun k => if k == "HOME" then some "/home/u" else none,
    pathExists := fun p =>
      p == "/opt/homebrew/bin/npm" ||
      p == "/home/u/.nvm/versions/node/v18.0.0/bin/npm",
    readDir := fun d =>
      if d == "/home/u/.nvm/versions/node" then
        some ["/home/u/.nvm/versions/node/v18.0.0"]
      else none }

/-- Witness for C3: with matches at priority 2 and priority 4 present
at once, `find_npm` returns the priority-2 match. -/
theorem find_npm_priority_witness :
    npmFromWhich layeredWorld = none ∧
    npmFromNvmScan layeredWorld "/home/u" =
      some "/home/u/.nvm/versions/node/v18.0.0/bin/npm" ∧
    find_npm layeredWorld = some "/opt/homebrew/bin/npm" :=
  ⟨rfl, rfl,
    (find_npm_priority layeredWorld).2.1 "/opt/homebrew/bin/npm" rfl rfl⟩

/-- C8: the environment override takes priority in `get_server_path`:
when CLAUDE_PM_SERVER_PATH names an existing path, that path is
returned whatever the home and executable stages would yield; and when
the named path does not exist, the override is skipped and the search
falls through to the later stages. -/
theorem server_path_priority (w : World) :
    (∀ path, w.getenv "CLAUDE_PM_SERVER_PATH" = some path →
      w.pathExists path = true → get_server_path w = some path) ∧
    (∀ path, w.getenv "CLAUDE_PM_SERVER_PATH" = some path →
      w.pathExists path = false →
      get_server_path w =
        match serverFromHome w with
        | some p => some p
        | none => serverFromExe w) := by
  constructor
  · intro path h1 h2
    simp [get_server_path, serverFromEnv, h1, h2]
  · intro path h1 h2
    simp [get_server_path, serverFromEnv, h1, h2]

/-- A machine where the override names an existing manifest-bearing
directory and the hardcoded home project path also exists. -/
def overrideWorld : World :=
  { quietWorld with
    getenv := fun k =>
      if k == "CLAUDE_PM_SERVER_PATH" then some "/tmp/fakeserver"
      else if k == "HOME" then some "/home/u" else none,
    pathExists := fun p =>
      p == "/tmp/fakeserver" || p == "/tmp/fakeserver/package.json" ||
      p == "/home/u/Desktop/projects/claudePM/server" }

/-- Witness for C8: the home-relative path exists and is valid, yet the
override path is returned. -/
theorem server_path_priority_witness :
    serverFromHome overrideWorld =
      some "/home/u/Desktop/projects/claudePM/server" ∧
    get_server_path overrideWorld = some "/tmp/fakeserver" :=
  ⟨rfl,
    (server_path_priority overrideWorld).1 "/tmp/fakeserver" rfl rfl⟩

/-- A machine where the override names an existing directory that does
not contain package.json. -/
def bareOverrideWorld : World :=
  { quietWorld with
    getenv := fun k =>
      if k == "CLAUDE_PM_SERVER_PATH" then some "/tmp/bare" else none,
    pathExists := fun p => p == "/tmp/bare" }

/-- C2 counterexample: it is not true that every directory returned by
`get_server_path` contains the manifest — the environment override
stage accepts a bare existing directory without checking for
package.json. -/
theorem server_path_manifest_counterexample :
    ¬ (∀ (w : World) (p : String), get_server_path w = some p →
        w.pathExists (p ++ "/package.json") = true) := by
  intro h
  have hc := h bareOverrideWorld "/tmp/bare" rfl
  exact absurd hc (by decide)

/-- Every hit of the executable-relative candidate scan carries the
manifest check. -/
theorem exeScan_manifest (w : World) (l : List String) (p : String)
    (h : l.findSome? (fun path =>
        match w.canonicalize path with
        | some canonical =>
          if w.pathExists (canonical ++ "/package.json") then some canonical
          else none
        | none => none) = some p) :
    w.pathExists (p ++ "/package.json") = true := by
  induction l with
  | nil => simp [List.findSome?] at h
  | cons a as ih =>
    rw [List.findSome?] at h
    cases hc : w.canonicalize a with
    | none => simp [hc] at h; exact ih h
    | some canonical =>
      by_cases hm : w.pathExists (canonical ++ "/package.json") = true
      · simp [hc, hm] at h
        exact h ▸ hm
      · simp [hc, hm] at h
        exact ih h

/-- C2 amended: only the executable-relative stage of `get_server_path`
validates the manifest. Any returned path comes from the override
stage, the home stage, or else contains package.json; in particular the
executable-relative stage never returns a directory lacking the
manifest, while the first two stages check only existence. -/
theorem server_path_manifest_amended (w : World) (p : String)
    (h : get_server_path w = some p) :
    serverFromEnv w = some p ∨ serverFromHome w = some p ∨
      w.pathExists (p ++ "/package.json") = true := by
  unfold get_server_path at h
  cases he : serverFromEnv w with
  | some q => rw [he] at h; exact Or.inl h
  | none =>
    rw [he] at h
    cases hh : serverFromHome w with
    | some q => rw [hh] at h; exact Or.inr (Or.inl h)
    | none =>
      rw [hh] at h
      refine Or.inr (Or.inr ?_)
      unfold serverFromExe at h
      cases hp : w.exeParent with
      | none => rw [hp] at h; exact absurd h (by simp)
      | some parent =>
        rw [hp] at h
        exact exeScan_manifest w (paths_to_try parent) p h

/-- A development layout: no override and no home variable, the first
executable-relative candidate canonicalizes to a directory holding
package.json. -/
def devWorld : World :=
  { quietWorld with
    exeParent := some "/repo/apps/desktop/src-tauri/target/debug",
    canonicalize := fun p =>
      if p == "/repo/apps/desktop/src-tauri/target/debug/../../../../server"
      then some "/repo/server" else none,
    pathExists := fun p => p == "/repo/server/package.json" }

/-- Witness for the amended C2 on the development layout. -/
theorem server_path_manifest_amended_witness :
    get_server_path devWorld = some "/repo/server" ∧
    (serverFromEnv devWorld = some "/repo/server" ∨
     serverFromHome devWorld = some "/repo/server" ∨
     devWorld.pathExists ("/repo/server" ++ "/package.json") = true) :=
  ⟨rfl, server_path_manifest_amended devWorld "/repo/server" rfl⟩

/-- C9: whenever `start_server` reaches a spawn with the port free and
spawn succeeding, the child is launched with the resolved server
directory as working directory, stdout and stderr piped, the npm
program with arguments run dev, and a child PATH that chains, ahead of
the inherited PATH value, the npm executable's containing directory,
the fixed OS utility directories, and the pinned nvm bin directory, in
that order, colon separated. -/
theorem start_spawn_config (w : World) (slot : Option Child)
    (npm sp : String)
    (hrun : w.listening serverPort = false)
    (hnpm : find_npm w = some npm)
    (hsp : get_server_path w = some sp)
    (hspawn : w.spawnOk = true) :
    (start_server w slot).spawnCalled = some
      { program := npm, args := ["run", "dev"], cwd := sp,
        pathEnv := String.intercalate ":"
          [(parentDir npm).getD npm, "/usr/local/bin", "/opt/homebrew/bin",
           "/usr/bin", "/bin", "/usr/sbin", "/sbin",
           ((w.getenv "HOME").getD "") ++ "/.nvm/versions/node/v20.18.0/bin",
           (w.getenv "PATH").getD ""],
        stdoutPiped := true, stderrPiped := true } := by
  by_cases hl : w.lockOk = true <;>
    simp [start_server, is_server_running, hrun, hnpm, hsp, hspawn, hl,
      String.intercalate, String.intercalate.go, String.append_assoc]

/-- A machine where npm sits at the first common location, the override
names the server directory, PATH is inherited, and spawn succeeds. -/
def spawnWorld : World :=
  { quietWorld with
    getenv := fun k =>
      if k == "CLAUDE_PM_SERVER_PATH" then some "/srv/app"
      else if k == "HOME" then some "/home/u"
      else if k == "PATH" then some "/usr/bin:/bin" else none,
    pathExists := fun p => p == "/srv/app" || p == "/usr/local/bin/npm",
    spawnOk := true, spawnPid := 171 }

/-- Witness for C9 on the concrete spawning machine. -/
theorem start_spawn_config_witness :
    (start_server spawnWorld none).spawnCalled = some
      { program := "/usr/local/bin/npm", args := ["run", "dev"],
        cwd := "/srv/app",
        pathEnv := String.intercalate ":"
          [(parentDir "/usr/local/bin/npm").getD "/usr/local/bin/npm",
           "/usr/local/bin", "/opt/homebrew/bin", "/usr/bin", "/bin",
           "/usr/sbin", "/sbin",
           ((spawnWorld.getenv "HOME").getD "") ++
             "/.nvm/versions/node/v20.18.0/bin",
           (spawnWorld.getenv "PATH").getD ""],
        stdoutPiped := true, stderrPiped := true } :=
  start_spawn_config spawnWorld none "/usr/local/bin/npm" "/srv/app"
    rfl rfl rfl rfl

/-- A machine where resolution and spawn succeed but the handle-slot
mutex is poisoned. -/
def poisonWorld : World :=
  { quietWorld with
    getenv := fun k =>
      if k == "CLAUDE_PM_SERVER_PATH" then some "/srv/app" else none,
    pathExists := fun p => p == "/srv/app" || p == "/usr/local/bin/npm",
    spawnOk := true, lockOk := false }

/-- C10: when the lock cannot be acquired after a successful spawn,
`start_server` returns an error although spawn was called, and the
fresh handle is never stored — the slot is exactly as before, so an
error return does not imply that no child was created. -/
theorem start_lock_poisoned (w : World) (slot : Option Child)
    (npm sp : String)
    (hrun : w.listening serverPort = false)
    (hnpm : find_npm w = some npm)
    (hsp : get_server_path w = some sp)
    (hspawn : w.spawnOk = true)
    (hlock : w.lockOk = false) :
    (∃ e, (start_server w slot).result = Except.error e) ∧
    (start_server w slot).spawnCalled ≠ none ∧
    (start_server w slot).slot = slot := by
  simp [start_server, is_server_running, hrun, hnpm, hsp, hspawn, hlock]

/-- Witness for C10 on the poisoned-lock machine. -/
theorem start_lock_poisoned_witness :
    (∃ e, (start_server poisonWorld none).result = Except.error e) ∧
    (start_server poisonWorld none).spawnCalled ≠ none ∧
    (start_server poisonWorld none).slot = none :=
  start_lock_poisoned poisonWorld none "/usr/local/bin/npm" "/srv/app"
    rfl rfl rfl rfl rfl

/-- C7 counterexample: on a held handle, `stop_server` performs exactly
a kill and a plain unbounded wait; no timed wait and no
escalate-after-timeout action occurs in its trace. -/
theorem stop_bounded_wait_counterexample :
    (stop_server true (some { pid := 9 })).actions =
      [ProcAction.kill 9, ProcAction.wait 9] ∧
    ¬ hasBoundedWait (stop_server true (some { pid := 9 })).actions = true :=
  ⟨rfl, by decide⟩

/-- C7 amended: when a handle is owned and the lock acquired,
`stop_server` sends the kill signal — on this platform already the
forceful kill, despite the source comment about graceful shutdown —
then blocks on a plain wait until the process exits and clears the
slot; no timeout or forceful-kill escalation step exists in the
trace. -/
theorem stop_kill_then_wait (c : Child) :
    (stop_server true (some c)).actions =
      [ProcAction.kill c.pid, ProcAction.wait c.pid] ∧
    (stop_server true (some c)).slot = none ∧
    hasBoundedWait (stop_server true (some c)).actions = false := by
  simp [stop_server, hasBoundedWait]
